import Mathlib

/-!
Verification of the fitness-SaaS backend core (workout analyzer, diet
analyzer, suggestion generator) against its natural-language specification.

The Python sources are shallowly embedded: dictionaries with optional keys
become structures with `Option` fields, duck-typed numbers become `Int`/`Rat`,
`datetime.strptime` is embedded following CPython's `_strptime` regexes, and
Python's stable `list.sort` is embedded as a stable insertion sort.
-/

namespace Fitness

/-! ### Character/string helpers

Python string operations used by the sources: `in` (substring test),
`.lower()`, and lexicographic comparison of strings (used as sort keys).
All are embedded over `List Char` so that they evaluate in the kernel.
-/

/-- `charsPre n h` : `n` is a prefix of `h` (char-by-char). -/
def charsPre : List Char → List Char → Bool
  | [], _ => true
  | _ :: _, [] => false
  | a :: as, b :: bs => a == b && charsPre as bs

/-- `charsHas n h` : `n` occurs as a contiguous substring of `h`;
embeds Python's `n in h`. -/
def charsHas (n : List Char) : List Char → Bool
  | [] => charsPre n []
  | c :: cs => charsPre n (c :: cs) || charsHas n cs

/-- Python's `needle in hay` on strings. -/
def strHas (needle hay : String) : Bool :=
  charsHas needle.data hay.data

/-- Python's `s.lower()` (the sources only feed ASCII text through it). -/
def lowerStr (s : String) : String :=
  ⟨s.data.map Char.toLower⟩

/-- Strict lexicographic order on char lists by code point;
embeds Python's `<` on strings. -/
def lexLt : List Char → List Char → Bool
  | [], [] => false
  | [], _ :: _ => true
  | _ :: _, [] => false
  | a :: as, b :: bs => a < b || (a == b && lexLt as bs)

/-- Non-strict lexicographic order on char lists. -/
def lexLe (a b : List Char) : Bool := lexLt a b || a == b

/-! ### Date parsing: CPython `strptime` with format `"%Y-%m-%d"`

CPython `_strptime` compiles `%Y` to four digits, `%m` to
`1[0-2]|0[1-9]|[1-9]`, `%d` to `3[01]|[12]\d|0[1-9]|[1-9]`, matches the whole
string, and then validates the day against the month via the `date`
constructor. Regex alternation with backtracking is embedded by producing
candidate matches in the regex's alternation order and trying each
continuation (`List.findSome?`).
-/

def digitVal (c : Char) : Nat := c.toNat - '0'.toNat

/-- `%Y`: exactly four digits. -/
def parseYear : List Char → Option (Nat × List Char)
  | a :: b :: c :: d :: rest =>
    if a.isDigit && b.isDigit && c.isDigit && d.isDigit then
      some (digitVal a * 1000 + digitVal b * 100 + digitVal c * 10 + digitVal d, rest)
    else none
  | _ => none

/-- `%m`: candidates for `1[0-2]|0[1-9]|[1-9]`, in alternation order. -/
def monthAlts : List Char → List (Nat × List Char)
  | c1 :: c2 :: rest =>
    (if c1 == '1' && (c2 == '0' || c2 == '1' || c2 == '2') then
      [(10 + digitVal c2, rest)] else []) ++
    (if c1 == '0' && c2.isDigit && c2 != '0' then [(digitVal c2, rest)] else []) ++
    (if c1.isDigit && c1 != '0' then [(digitVal c1, c2 :: rest)] else [])
  | [c1] => if c1.isDigit && c1 != '0' then [(digitVal c1, [])] else []
  | [] => []

/-- `%d`: candidates for `3[01]|[12]\d|0[1-9]|[1-9]`, in alternation order. -/
def dayAlts : List Char → List (Nat × List Char)
  | c1 :: c2 :: rest =>
    (if c1 == '3' && (c2 == '0' || c2 == '1') then [(30 + digitVal c2, rest)] else []) ++
    (if (c1 == '1' || c1 == '2') && c2.isDigit then
      [(10 * digitVal c1 + digitVal c2, rest)] else []) ++
    (if c1 == '0' && c2.isDigit && c2 != '0' then [(digitVal c2, rest)] else []) ++
    (if c1.isDigit && c1 != '0' then [(digitVal c1, c2 :: rest)] else [])
  | [c1] => if c1.isDigit && c1 != '0' then [(digitVal c1, [])] else []
  | [] => []

/-- Proleptic-Gregorian leap year, as in Python's `calendar.isleap`. -/
def isLeap (y : Nat) : Bool := y % 4 == 0 && (y % 100 != 0 || y % 400 == 0)

/-- Days in a month (`datetime`'s validation table). -/
def daysInMonth (y m : Nat) : Nat :=
  if m == 2 then (if isLeap y then 29 else 28)
  else if m == 4 || m == 6 || m == 9 || m == 11 then 30
  else 31

structure Date where
  year : Nat
  month : Nat
  day : Nat
deriving DecidableEq

/-- Match `%Y-%m-%d` against the whole char list (backtracking as in `re`). -/
def matchYMD (cs : List Char) : Option Date :=
  match parseYear cs with
  | some (y, '-' :: r1) =>
    (monthAlts r1).findSome? fun (m, r2) =>
      match r2 with
      | '-' :: r3 =>
        (dayAlts r3).findSome? fun (d, r4) =>
          if r4 = ([] : List Char) then some ⟨y, m, d⟩ else none
      | _ => none
  | _ => none

/-- `datetime.strptime(s, "%Y-%m-%d")`: regex match plus constructor
validation (`MINYEAR ≤ year`, day in range for the month). Returns `none`
where Python raises `ValueError`. -/
def parseDate (s : String) : Option Date :=
  (matchYMD s.data).bind fun dt =>
    if 1 ≤ dt.year ∧ dt.day ≤ daysInMonth dt.year dt.month then some dt else none

/-- Days strictly before year `y` in the proleptic Gregorian calendar
(as in `datetime.date.toordinal`). -/
def daysBeforeYear (y : Nat) : Nat :=
  (y - 1) * 365 + (y - 1) / 4 - (y - 1) / 100 + (y - 1) / 400

/-- Days strictly before month `m` in year `y`. -/
def daysBeforeMonth (y : Nat) : Nat → Nat
  | 0 => 0
  | 1 => 0
  | m + 1 => daysBeforeMonth y m + daysInMonth y m

/-- `date.toordinal()`: day 1 is 0001-01-01. -/
def toOrdinal (dt : Date) : Nat :=
  daysBeforeYear dt.year + daysBeforeMonth dt.year dt.month + dt.day

/-- Parse a date string straight to its ordinal. -/
def parseOrd (s : String) : Option Nat :=
  (parseDate s).map toOrdinal

/-! ### Timestamp parsing: `strptime` with `"%Y-%m-%dT%H:%M:%S.%fZ"`

Used only as the diet analyzer's sort key. `%H` compiles to
`2[0-3]|[0-1]\d|\d`, `%M` to `[0-5]\d|\d`, `%S` to `6[0-1]|[0-5]\d|\d`
(with seconds 60/61 then rejected by the `datetime` constructor), and `%f`
to `[0-9]{1,6}` scaled to microseconds; literals `T`/`Z` match
case-insensitively (the compiled regex carries `re.IGNORECASE`).
-/

/-- `%H`: candidates for `2[0-3]|[0-1]\d|\d`. -/
def hourAlts : List Char → List (Nat × List Char)
  | c1 :: c2 :: rest =>
    (if c1 == '2' && (c2 == '0' || c2 == '1' || c2 == '2' || c2 == '3') then
      [(20 + digitVal c2, rest)] else []) ++
    (if (c1 == '0' || c1 == '1') && c2.isDigit then
      [(10 * digitVal c1 + digitVal c2, rest)] else []) ++
    (if c1.isDigit then [(digitVal c1, c2 :: rest)] else [])
  | [c1] => if c1.isDigit then [(digitVal c1, [])] else []
  | [] => []

/-- `%M`: candidates for `[0-5]\d|\d`. -/
def minuteAlts : List Char → List (Nat × List Char)
  | c1 :: c2 :: rest =>
    (if c1.isDigit && digitVal c1 ≤ 5 && c2.isDigit then
      [(10 * digitVal c1 + digitVal c2, rest)] else []) ++
    (if c1.isDigit then [(digitVal c1, c2 :: rest)] else [])
  | [c1] => if c1.isDigit then [(digitVal c1, [])] else []
  | [] => []

/-- `%S`: candidates for `6[0-1]|[0-5]\d|\d`. -/
def secondAlts : List Char → List (Nat × List Char)
  | c1 :: c2 :: rest =>
    (if c1 == '6' && (c2 == '0' || c2 == '1') then [(60 + digitVal c2, rest)] else []) ++
    (if c1.isDigit && digitVal c1 ≤ 5 && c2.isDigit then
      [(10 * digitVal c1 + digitVal c2, rest)] else []) ++
    (if c1.isDigit then [(digitVal c1, c2 :: rest)] else [])
  | [c1] => if c1.isDigit then [(digitVal c1, [])] else []
  | [] => []

/-- `%f`: one to six digits, right-padded to microseconds. Greedy matching
against a following non-digit literal degenerates to "take all digits, at
most six". -/
def fracAlt (cs : List Char) : Option (Nat × List Char) :=
  let ds := cs.takeWhile Char.isDigit
  let rest := cs.dropWhile Char.isDigit
  if 1 ≤ ds.length ∧ ds.length ≤ 6 then
    some ((ds.foldl (fun a c => a * 10 + digitVal c) 0) * 10 ^ (6 - ds.length), rest)
  else none

/-- Microseconds since 0001-01-01T00:00:00, the comparison key of a parsed
timestamp. -/
def tsKey (dt : Date) (h m s f : Nat) : Nat :=
  ((toOrdinal dt * 24 + h) * 60 + m) * 60 * 1000000 + s * 1000000 + f

/-- `datetime.strptime(s, "%Y-%m-%dT%H:%M:%S.%fZ")`, reduced to its
comparison key. Returns `none` where Python raises `ValueError`. -/
def parseTs (s : String) : Option Nat :=
  match parseYear s.data with
  | some (y, '-' :: r1) =>
    (monthAlts r1).findSome? fun (mo, r2) =>
      match r2 with
      | '-' :: r3 =>
        (dayAlts r3).findSome? fun (d, r4) =>
          match r4 with
          | t :: r5 =>
            if t == 'T' || t == 't' then
              (hourAlts r5).findSome? fun (h, r6) =>
                match r6 with
                | ':' :: r7 =>
                  (minuteAlts r7).findSome? fun (mi, r8) =>
                    match r8 with
                    | ':' :: r9 =>
                      (secondAlts r9).findSome? fun (se, r10) =>
                        match r10 with
                        | '.' :: r11 =>
                          match fracAlt r11 with
                          | some (f, [z]) =>
                            if (z == 'Z' || z == 'z') && 1 ≤ y &&
                                d ≤ daysInMonth y mo && se ≤ 59 then
                              some (tsKey ⟨y, mo, d⟩ h mi se f)
                            else none
                          | _ => none
                        | _ => none
                    | _ => none
                | _ => none
            else none
          | [] => none
      | _ => none
  | _ => none

/-! ### Workout analyzer (`processing/workout_analyzer.py`)

A workout log entry is a dictionary; the keys the analyzer reads become
`Option` fields (`none` = key absent or `None`). Numeric set data is `Int`,
perceived exertion `Int` (averaged into a `Rat`).
-/

structure WorkoutLog where
  workout_date : Option String := none
  completion_status : Option String := none
  workout_exercise_id : Option String := none
  weight_per_set : Option (List (Option Int)) := none
  reps_per_set : Option (List (Option Int)) := none
  sets_completed : Option Int := none
  perceived_exertion : Option Int := none
  notes : Option String := none
deriving DecidableEq

/-- The `analysis_results["consistency"]` sub-dictionary: each key that may
or may not be set becomes an `Option` field. -/
structure ConsistencyInfo where
  message : Option String := none
  unique_workout_dates : Option Nat := none
  time_span_days : Option Int := none
  workouts_per_day_average : Option Rat := none
deriving DecidableEq

/-- The analyzer's result dictionary. Histograms and the per-exercise trend
map are association lists in Python-dict insertion order. The
`perceived_exertion` entry is the average as an exact rational (`none` for
the `"N/A"` default); the source renders it as a string
`f"Average perceived exertion: {avg:.1f}"` plus `" (Potentially high)"` when
the average exceeds 7 — a presentation of this value. -/
structure WorkoutAnalysis where
  consistency : ConsistencyInfo
  completion_summary : List (String × Nat) := []
  progress_trends : List (String × String) := []
  perceived_exertion : Option Rat := none
  notes_summary : List String := []
deriving DecidableEq

/-- Sort key of `workout_logs.sort(key=lambda log: log.get("workout_date", ""))`,
as a char list (Python compares strings by code point). -/
def wKey (l : WorkoutLog) : List Char :=
  (l.workout_date.getD "").data

/-- `lambda a, b: a.get("workout_date","") <= b.get("workout_date","")`. -/
def wLe (a b : WorkoutLog) : Prop := lexLe (wKey a) (wKey b) = true

instance : DecidableRel wLe := fun _ _ => decEq _ _

/-- Python's `list.sort` is stable; a stable insertion sort on the same key
has the same result. -/
def wSort (logs : List WorkoutLog) : List WorkoutLog :=
  List.insertionSort wLe logs

/-- Python truthiness of an optional string (`None` and `""` are falsy). -/
def truthyStr : Option String → Bool
  | none => false
  | some s => s != ""

/-- The distinct truthy `workout_date` values:
`set(log.get("workout_date") for log in workout_logs if log.get("workout_date"))`.
The embedding lists them in first-occurrence order; only the cardinality and
the (order-insensitive) parsed extrema are consumed. -/
def uniqueDates (logs : List WorkoutLog) : List String :=
  ((logs.filterMap (·.workout_date)).filter (· != "")).dedup

/-- `defaultdict(int)` increment: bump an existing key or append it with
count 1 (Python dicts keep insertion order). -/
def bump (k : String) : List (String × Nat) → List (String × Nat)
  | [] => [(k, 1)]
  | (k', n) :: rest => if k' = k then (k', n + 1) :: rest else (k', n) :: bump k rest

/-- Completion-status histogram:
`completion_counts[log.get("completion_status", "unknown")] += 1`. -/
def completionSummary (logs : List WorkoutLog) : List (String × Nat) :=
  logs.foldl (fun acc l => bump (l.completion_status.getD "unknown") acc) []

/-- One exercise's accumulated `{"weights": [], "reps": [], "sets": []}`. -/
structure ExerciseData where
  weights : List Int := []
  reps : List Int := []
  sets : List Int := []
deriving DecidableEq

/-- Per-log accumulation into an exercise's data: the truthiness guards
(`if log.get("weight_per_set"):`) skip absent and empty lists, and `None`
elements are filtered out before extending. -/
def addLogData (l : WorkoutLog) (d : ExerciseData) : ExerciseData :=
  let d := match l.weight_per_set with
    | some ws => if ws ≠ [] then { d with weights := d.weights ++ ws.filterMap id } else d
    | none => d
  let d := match l.reps_per_set with
    | some rs => if rs ≠ [] then { d with reps := d.reps ++ rs.filterMap id } else d
    | none => d
  match l.sets_completed with
  | some s => { d with sets := d.sets ++ [s] }
  | none => d

/-- Upsert into the `defaultdict`-backed per-exercise map (insertion order
is first-occurrence order). -/
def upsertExercise (eid : String) (l : WorkoutLog) :
    List (String × ExerciseData) → List (String × ExerciseData)
  | [] => [(eid, addLogData l {})]
  | (e, d) :: rest =>
    if e = eid then (e, addLogData l d) :: rest else (e, d) :: upsertExercise eid l rest

/-- `exercise_progress` after the accumulation loop (entries lacking
`workout_exercise_id` are skipped; the id's truthiness is what the `if
exercise_id:` guard tests). -/
def exerciseProgress (logs : List WorkoutLog) : List (String × ExerciseData) :=
  logs.foldl
    (fun acc l =>
      match l.workout_exercise_id with
      | some eid => if eid ≠ "" then upsertExercise eid l acc else acc
      | none => acc)
    []

/-- `max(l) > min(l)` guarded by truthiness of `l`. -/
def spreadPos (l : List Int) : Bool :=
  match l with
  | [] => false
  | x :: xs => decide (xs.foldl max x > xs.foldl min x)

/-- The per-exercise label chain. `progress_status` starts as
`"No significant change"`; the `elif` branches re-test it (mutation inside
the not-taken `if` branch cannot have happened, which the `let`-scoping
mirrors exactly). -/
def progressLabel (d : ExerciseData) : String :=
  let st := "No significant change"
  if spreadPos d.weights then "Weight increased"
  else if spreadPos d.reps then
    (if st = "No significant change" then "Reps increased" else st ++ " and Reps increased")
  else if spreadPos d.sets then
    (if st = "No significant change" then "Sets increased" else st ++ " and Sets increased")
  else st

/-- `analysis_results["progress_trends"]`. -/
def progressTrends (logs : List WorkoutLog) : List (String × String) :=
  (exerciseProgress logs).map fun (e, d) => (e, progressLabel d)

/-- Average perceived exertion over the entries carrying a non-null value
(`none` when there are none, rendered `"N/A"`). -/
def perceivedExertionAvg (logs : List WorkoutLog) : Option Rat :=
  let pes := logs.filterMap (·.perceived_exertion)
  if pes.length > 0 then some ((pes.sum : Rat) / (pes.length : Rat)) else none

/-- `[log.get("notes") for log in workout_logs if log.get("notes")][:3]`. -/
def notesSummary (logs : List WorkoutLog) : List String :=
  ((logs.filterMap (·.notes)).filter (· != "")).take 3

/-- The consistency block. `unique_workout_dates` is always recorded; when
some dates exist they are all parsed (`strptime`, a `ValueError` propagates
— modelled as `.error`), the span in days is last-minus-first of the sorted
parsed dates (0 for a single date), and the ratio is attached only under
`if time_span > 0:` (the inner `else len(unique_dates)` is kept verbatim). -/
def consistencyOf (logs : List WorkoutLog) : Except String ConsistencyInfo :=
  let uniq := uniqueDates logs
  if uniq = [] then
    .ok { unique_workout_dates := some uniq.length }
  else
    match uniq.mapM parseOrd with
    | none => .error "time data does not match format Y-m-d"
    | some ords =>
      let sorted := List.insertionSort (· ≤ ·) ords
      let span : Int :=
        if sorted.length > 1 then (sorted.getLast?.getD 0 : Int) - (sorted.head?.getD 0 : Int)
        else 0
      .ok { unique_workout_dates := some uniq.length
            time_span_days := some span
            workouts_per_day_average :=
              if span > 0 then
                some (if span > 0 then (uniq.length : Rat) / (span : Rat) else (uniq.length : Rat))
              else none }

/-- `analyze_workout_logs`: empty-batch early return, then the in-place sort
by date, then the five analysis blocks over the sorted list. -/
def analyze_workout_logs (logs : List WorkoutLog) : Except String WorkoutAnalysis :=
  match logs with
  | [] => .ok { consistency := { message := some "No workout logs provided." } }
  | _ :: _ =>
    let sorted := wSort logs
    match consistencyOf sorted with
    | .error e => .error e
    | .ok c =>
      .ok { consistency := c
            completion_summary := completionSummary sorted
            progress_trends := progressTrends sorted
            perceived_exertion := perceivedExertionAvg sorted
            notes_summary := notesSummary sorted }

/-! ### Diet analyzer (`processing/diet_analyzer.py`)

The source file's indentation is corrupted (it is not valid Python as
given); the embedding follows the statement-level structure, reading each
`if`-chain at the indentation of its surrounding symmetric pattern. In
particular the four `*_vs_target` checks (source lines 112–119) are read as
four sibling `if` statements: lines 118–119 are mis-indented to the same
column, which is a syntax error in the original, and the minimal repair
consistent with the three preceding checks is the flat form.

Macros are embedded as `Rat` (Python numbers; `x or 0` maps falsy values to
0, which `Option.getD 0` captures for absent/`None`/0 values).
-/

structure DietLog where
  created_at : Option String := none
  log_date : Option String := none
  calories : Option Rat := none
  protein : Option Rat := none
  carbs : Option Rat := none
  fats : Option Rat := none
  compliance : Option Bool := none
  meal_type : Option String := none
  food_name : Option String := none
  notes : Option String := none
deriving DecidableEq

/-- One `daily_intake[log_date]` bucket (`defaultdict(float)`). -/
structure DayAcc where
  calories : Rat := 0
  protein : Rat := 0
  carbs : Rat := 0
  fats : Rat := 0
deriving DecidableEq

/-- The analyzer's result dictionary; `*_vs_target` keys are present only
when the corresponding target was supplied. -/
structure DietAnalysis where
  total_calories : Rat := 0
  total_protein : Rat := 0
  total_carbs : Rat := 0
  total_fats : Rat := 0
  compliance_rate : Rat := 0
  meal_type_distribution : List (String × Nat) := []
  notes_summary : List String := []
  food_name_counts : List (String × Nat) := []
  average_daily_calories : Rat := 0
  average_daily_protein : Rat := 0
  average_daily_carbs : Rat := 0
  average_daily_fats : Rat := 0
  calories_vs_target : Option Rat := none
  protein_vs_target : Option Rat := none
  carbs_vs_target : Option Rat := none
  fats_vs_target : Option Rat := none
deriving DecidableEq

/-- `log.get(field, 0) or 0`. -/
def macro0 (v : Option Rat) : Rat := v.getD 0

/-- The sort key
`datetime.strptime(x.get('created_at'), '%Y-%m-%dT%H:%M:%S.%fZ') if x.get('created_at') else datetime.min`,
valid only when every truthy `created_at` parses (checked separately).
`datetime.min` is 0001-01-01T00:00:00, key `tsKey ⟨1,1,1⟩ 0 0 0 0`. -/
def dKey (l : DietLog) : Nat :=
  match l.created_at with
  | some s => if s ≠ "" then (parseTs s).getD (tsKey ⟨1, 1, 1⟩ 0 0 0 0) else tsKey ⟨1, 1, 1⟩ 0 0 0 0
  | none => tsKey ⟨1, 1, 1⟩ 0 0 0 0

def dLe (a b : DietLog) : Prop := dKey a ≤ dKey b

instance : DecidableRel dLe := fun a b => Nat.decLe (dKey a) (dKey b)

/-- Python's stable `diet_logs.sort(key=...)`. -/
def dSort (logs : List DietLog) : List DietLog :=
  List.insertionSort dLe logs

/-- Whether a log's `created_at` sort key can be computed without a
`ValueError` (truthy but unparseable timestamps raise inside the sort's key
call, caught by the outer `except` as a `ProcessingError`). -/
def tsOk (l : DietLog) : Bool :=
  match l.created_at with
  | some s => s == "" || (parseTs s).isSome
  | none => true

/-- A log's parsed day bucket key: `some` when `log_date` is truthy and
parses with `strptime('%Y-%m-%d')`, otherwise `none` (absent, falsy, or the
swallowed per-entry `ValueError`). -/
def dayOf (l : DietLog) : Option Nat :=
  match l.log_date with
  | some s => if s ≠ "" then parseOrd s else none
  | none => none

/-- Add one log's macros to a day bucket. -/
def addMacros (l : DietLog) (d : DayAcc) : DayAcc :=
  { calories := d.calories + macro0 l.calories
    protein := d.protein + macro0 l.protein
    carbs := d.carbs + macro0 l.carbs
    fats := d.fats + macro0 l.fats }

/-- Upsert into `daily_intake` (insertion order = first-occurrence order of
the parsed day). -/
def upsertDay (k : Nat) (l : DietLog) : List (Nat × DayAcc) → List (Nat × DayAcc)
  | [] => [(k, addMacros l {})]
  | (k', d) :: rest =>
    if k' = k then (k', addMacros l d) :: rest else (k', d) :: upsertDay k l rest

/-- One loop iteration of the day-bucketing step: entries without a
parseable truthy `log_date` leave the accumulator unchanged. -/
def dailyStep (acc : List (Nat × DayAcc)) (l : DietLog) : List (Nat × DayAcc) :=
  match dayOf l with
  | some k => upsertDay k l acc
  | none => acc

/-- `daily_intake` after the loop: only entries whose `log_date` is truthy
and parseable contribute. -/
def dailyIntake (logs : List DietLog) : List (Nat × DayAcc) :=
  logs.foldl dailyStep []

/-- The auto-generated note for a `compliance is False` entry:
`f"Non-compliant entry on {log.get('log_date')}: {log.get('notes', 'No specific notes.')}"`
(a `None` date renders as `"None"`). -/
def nonCompliantNote (l : DietLog) : String :=
  "Non-compliant entry on " ++ (match l.log_date with | some s => s | none => "None") ++
    ": " ++ l.notes.getD "No specific notes."

/-- The notes a single loop iteration appends: the non-compliance note (from
the compliance check) and then the entry's own truthy `notes`. -/
def dietNotesOf (l : DietLog) : List String :=
  (if l.compliance = some false then [nonCompliantNote l] else []) ++
    (match l.notes with | some s => if s ≠ "" then [s] else [] | none => [])

/-- Histogram over the truthy values of one optional string field. -/
def fieldHist (f : DietLog → Option String) (logs : List DietLog) : List (String × Nat) :=
  logs.foldl
    (fun acc l =>
      match f l with
      | some v => if v ≠ "" then bump v acc else acc
      | none => acc)
    []

/-- `analyze_diet_logs`: the sort (whose key can raise, wrapped into a
`ProcessingError` by the outer `except`), the empty-batch early return —
which precedes the target comparisons — then the aggregation loop and the
derived fields. -/
def analyze_diet_logs (logs : List DietLog)
    (target_calories target_protein target_carbs target_fats : Option Rat) :
    Except String DietAnalysis :=
  if (logs.all tsOk) = false then
    .error "Error analyzing diet logs: time data does not match format"
  else
    let sorted := dSort logs
    match sorted with
    | [] => .ok {}
    | _ :: _ =>
      let total_logs := sorted.length
      let compliant := (sorted.filter (·.compliance = some true)).length
      let daily := dailyIntake sorted
      let numDays := daily.length
      let avgCal : Rat := if numDays > 0 then (daily.map (·.2.calories)).sum / (numDays : Rat) else 0
      let avgPro : Rat := if numDays > 0 then (daily.map (·.2.protein)).sum / (numDays : Rat) else 0
      let avgCarb : Rat := if numDays > 0 then (daily.map (·.2.carbs)).sum / (numDays : Rat) else 0
      let avgFat : Rat := if numDays > 0 then (daily.map (·.2.fats)).sum / (numDays : Rat) else 0
      .ok { total_calories := (sorted.map (macro0 ·.calories)).sum
            total_protein := (sorted.map (macro0 ·.protein)).sum
            total_carbs := (sorted.map (macro0 ·.carbs)).sum
            total_fats := (sorted.map (macro0 ·.fats)).sum
            compliance_rate :=
              if total_logs > 0 then ((compliant : Rat) / (total_logs : Rat)) * 100 else 0
            meal_type_distribution := fieldHist (·.meal_type) sorted
            notes_summary := sorted.flatMap dietNotesOf
            food_name_counts := fieldHist (·.food_name) sorted
            average_daily_calories := avgCal
            average_daily_protein := avgPro
            average_daily_carbs := avgCarb
            average_daily_fats := avgFat
            calories_vs_target := target_calories.map (fun t => avgCal - t)
            protein_vs_target := target_protein.map (fun t => avgPro - t)
            carbs_vs_target := target_carbs.map (fun t => avgCarb - t)
            fats_vs_target := target_fats.map (fun t => avgFat - t) }

/-! ### Suggestion generator (`suggestions/suggestion_generator.py`)

The module defines `generate_suggestions` twice; the second definition
shadows the first at import time and is the one the application calls, so it
is the one embedded here. Its input is a dictionary of two sub-dictionaries
read with `.get(key, default)`; an absent or empty (falsy) sub-dictionary is
modelled as `none`, and a present non-empty one as `some` of a record of its
relevant optional keys.
-/

structure WorkoutSummary where
  consistency : Option String := none
  progress : Option String := none
  perceived_exertion : Option String := none
  notes : Option String := none
deriving DecidableEq

structure DietSummary where
  compliance : Option String := none
  calories : Option String := none
  protein : Option String := none
  notes : Option String := none
deriving DecidableEq

structure AnalyzedData where
  workout_analysis : Option WorkoutSummary := none
  diet_analysis : Option DietSummary := none
deriving DecidableEq

/-- `.get(key, default)` through the optional sub-dictionary. -/
def getW (d : AnalyzedData) (f : WorkoutSummary → Option String) (dflt : String) : String :=
  ((d.workout_analysis.bind f).getD dflt)

def getDt (d : AnalyzedData) (f : DietSummary → Option String) (dflt : String) : String :=
  ((d.diet_analysis.bind f).getD dflt)

/-- `workout_analysis.get('notes', '').lower()`. -/
def wNotesLower (d : AnalyzedData) : String := lowerStr (getW d (·.notes) "")

/-- `diet_analysis.get('notes', '').lower()`. -/
def dNotesLower (d : AnalyzedData) : String := lowerStr (getDt d (·.notes) "")

def sugFrequency : String :=
  "Workout Tip: Increasing workout frequency could help you reach your goals faster."
def sugIntensity : String :=
  "Workout Adjustment: Consider slightly increasing intensity (weight, reps, or sets) on key exercises."
def sugOvertraining : String :=
  "Warning Flag: High perceived exertion consistently could indicate overtraining. Prioritize rest and recovery."
def sugRecovery : String :=
  "Workout Tip: Pay extra attention to recovery and sleep this week."
def sugMealPlan : String :=
  "Nutrition Tip: Review your meal plan to identify barriers to consistency and find practical solutions."
def sugCalories : String :=
  "Nutrition Adjustment: Ensure your calorie intake supports your activity level and goals."
def sugProtein : String :=
  "Nutrition Tip: Focus on incorporating more protein sources into your meals."
def sugHunger : String :=
  "Nutrition Tip: Consider adjusting meal timing or composition to manage hunger."
def sugGeneral1 : String :=
  "General Tip: Review your workout intensity this week."
def sugGeneral2 : String :=
  "General Tip: Pay attention to your hydration and sleep."
def sugMotivation : String :=
  "Motivation: Remember your goals and why you started! Stay disciplined."
def sugPainWarning : String :=
  "Warning Flag: Trainee noted pain during workouts. Advise checking form or consulting a professional."

/-- `suggestions.append(s)` guarded by a condition. -/
def appendIf (c : Bool) (s : String) (l : List String) : List String :=
  if c then l ++ [s] else l

/-- The list after the workout and nutrition rule blocks (the live second
definition has no `progress == 'good' and compliance == 'high'` rule). -/
def ruleSuggestions (d : AnalyzedData) : List String :=
  let l : List String := []
  let l := if getW d (·.consistency) "unknown" = "low" then l ++ [sugFrequency]
    else if getW d (·.progress) "unknown" = "stalled" then l ++ [sugIntensity]
    else l
  let l := appendIf (getW d (·.perceived_exertion) "unknown" = "high") sugOvertraining l
  let l := appendIf (strHas "tired" (wNotesLower d) || strHas "fatigue" (wNotesLower d))
    sugRecovery l
  let l := appendIf (getDt d (·.compliance) "unknown" = "low") sugMealPlan l
  let l := appendIf (getDt d (·.calories) "unknown" = "low") sugCalories l
  let l := appendIf (getDt d (·.protein) "unknown" = "low") sugProtein l
  appendIf (strHas "hungry" (dNotesLower d)) sugHunger l

/-- `while len(suggestions) < 2 and (workout_analysis or diet_analysis): ...`
unrolled: from 0 it appends both general tips, from 1 the second one; it
runs only when at least one analysis dictionary is truthy. -/
def padToTwo (truthy : Bool) (l : List String) : List String :=
  if truthy then
    if l.length = 0 then l ++ [sugGeneral1, sugGeneral2]
    else if l.length = 1 then l ++ [sugGeneral2]
    else l
  else l

/-- `if len(suggestions) < 4 and not any(flag in s for s in suggestions for
flag in ["Warning Flag"]): append(motivation)`. -/
def addMotivation (l : List String) : List String :=
  if l.length < 4 && !(l.any fun s => strHas "Warning Flag" s) then l ++ [sugMotivation]
  else l

/-- Everything before the final pain append. -/
def sugsBeforePain (d : AnalyzedData) : List String :=
  addMotivation
    (padToTwo (d.workout_analysis.isSome || d.diet_analysis.isSome) (ruleSuggestions d))

/-- Everything before the final `[:4]` truncation (the pain warning is
appended after the count logic). -/
def sugsPreTrunc (d : AnalyzedData) : List String :=
  appendIf (strHas "pain" (wNotesLower d)) sugPainWarning (sugsBeforePain d)

/-- The live `generate_suggestions`: rules, padding, motivational filler,
pain warning, then `return suggestions[:4]`. -/
def generate_suggestions (d : AnalyzedData) : List String :=
  (sugsPreTrunc d).take 4

/-! ### Derived notions used by the statements -/

/-- Total of a histogram's counts. -/
def sumCounts (h : List (String × Nat)) : Nat :=
  (h.map (·.2)).sum

/-- Strict version of the workout sort order: smaller-or-equal key and
different key. Used to show a sort result is unique when the keys are
pairwise distinct. -/
def wLt (a b : WorkoutLog) : Prop := wLe a b ∧ wKey a ≠ wKey b

/-- Whether a diet log contributes a day bucket. -/
def hasDay (l : DietLog) : Bool := (dayOf l).isSome

/-- The four labels the per-exercise progress chain can actually produce. -/
def progressLabels : List String :=
  ["No significant change", "Weight increased", "Reps increased", "Sets increased"]

/-- The strings the rule blocks can append (before the pain check). -/
def prePainStrings : List String :=
  [sugFrequency, sugIntensity, sugOvertraining, sugRecovery, sugMealPlan, sugCalories,
    sugProtein, sugHunger, sugGeneral1, sugGeneral2, sugMotivation]

/-! ### Concrete instances used by counterexamples and witnesses -/

/-- Workout summary with low consistency, high exertion and pained notes. -/
def painBusy : AnalyzedData :=
  { workout_analysis := some
      { consistency := some "low", perceived_exertion := some "high", notes := some "tired pain" }
    diet_analysis := some { compliance := some "low" } }

/-- The spec's scenario input: workout notes `"Felt tired, some knee pain"`,
everything else absent or empty. -/
def tiredKneePain : AnalyzedData :=
  { workout_analysis := some { notes := some "Felt tired, some knee pain" } }

/-- Two logs sharing a workout date, distinguished only by their notes. -/
def dupDateA : WorkoutLog := { workout_date := some "2026-01-01", notes := some "first note" }

def dupDateB : WorkoutLog := { workout_date := some "2026-01-01", notes := some "second note" }

/-- Two distinct date strings that `strptime("%Y-%m-%d")` parses to the same
day (the format accepts unpadded fields). -/
def samedayA : WorkoutLog := { workout_date := some "2026-01-02" }

def samedayB : WorkoutLog := { workout_date := some "2026-1-2" }

/-- Two logs on one date for one exercise with increasing weights. -/
def liftLogA : WorkoutLog :=
  { workout_date := some "2026-01-01"
    workout_exercise_id := some "ex1"
    weight_per_set := some [some 100]
    completion_status := some "completed" }

def liftLogB : WorkoutLog :=
  { workout_date := some "2026-01-01"
    workout_exercise_id := some "ex1"
    weight_per_set := some [some 105] }

/-- The analysis of `[liftLogA, liftLogB]`. -/
def liftAnalysis : WorkoutAnalysis :=
  { consistency := { unique_workout_dates := some 1, time_span_days := some 0 }
    completion_summary := [("completed", 1), ("unknown", 1)]
    progress_trends := [("ex1", "Weight increased")] }

/-- The analysis of `[samedayA, samedayB]`: two distinct date strings, zero
day span, and no workouts-per-day ratio. -/
def samedayAnalysis : WorkoutAnalysis :=
  { consistency := { unique_workout_dates := some 2, time_span_days := some 0 }
    completion_summary := [("unknown", 2)] }

/-- Two logs with distinct dates, distinguishable by their notes. -/
def distinctA : WorkoutLog := { workout_date := some "2026-01-01", notes := some "day one" }

def distinctB : WorkoutLog := { workout_date := some "2026-01-02", notes := some "day two" }

/-- The spec's scenario entry: an unparseable `log_date`. -/
def badDateLog : DietLog := { log_date := some "not-a-date", calories := some 100 }

/-- A companion entry with a parseable date. -/
def goodDateLog : DietLog := { log_date := some "2026-01-01", calories := some 1 }

/-- A diet log with no fields at all. -/
def blankDietLog : DietLog := {}

/-! ## Theorems

First, order-theoretic facts about the embedded string comparison, needed to
reason about the stable sorts.
-/

theorem lexLt_asymm : ∀ {a b : List Char}, lexLt a b = true → lexLt b a = true → False
  | [], [], h, _ => by simp [lexLt] at h
  | [], _ :: _, _, h' => by simp [lexLt] at h'
  | _ :: _, [], h, _ => by simp [lexLt] at h
  | x :: xs, y :: ys, h, h' => by
    simp only [lexLt, Bool.or_eq_true, Bool.and_eq_true, decide_eq_true_eq, beq_iff_eq] at h h'
    rcases h with h | ⟨rfl, h⟩
    · rcases h' with h' | ⟨rfl, _⟩
      · exact absurd h (lt_asymm h')
      · exact absurd h (lt_irrefl _)
    · rcases h' with h' | ⟨_, h'⟩
      · exact absurd h' (lt_irrefl _)
      · exact lexLt_asymm h h'

theorem lexLt_trans : ∀ {a b c : List Char},
    lexLt a b = true → lexLt b c = true → lexLt a c = true
  | [], [], _, h, _ => by simp [lexLt] at h
  | [], _ :: _, [], _, h' => by simp [lexLt] at h'
  | [], _ :: _, _ :: _, _, _ => by simp [lexLt]
  | _ :: _, [], _, h, _ => by simp [lexLt] at h
  | _ :: _, _ :: _, [], _, h' => by simp [lexLt] at h'
  | x :: xs, y :: ys, z :: zs, h, h' => by
    simp only [lexLt, Bool.or_eq_true, Bool.and_eq_true, decide_eq_true_eq, beq_iff_eq]
      at h h' ⊢
    rcases h with h | ⟨rfl, h⟩
    · rcases h' with h' | ⟨rfl, _⟩
      · exact Or.inl (lt_trans h h')
      · exact Or.inl h
    · rcases h' with h' | ⟨rfl, h'⟩
      · exact Or.inl h'
      · exact Or.inr ⟨rfl, lexLt_trans h h'⟩

theorem lexLe_total : ∀ a b : List Char, lexLe a b = true ∨ lexLe b a = true := by
  intro a b
  induction a generalizing b with
  | nil => cases b <;> simp [lexLe, lexLt]
  | cons x xs ih =>
    cases b with
    | nil => simp [lexLe, lexLt]
    | cons y ys =>
      simp only [lexLe, lexLt, Bool.or_eq_true, Bool.and_eq_true, decide_eq_true_eq,
        beq_iff_eq, List.cons.injEq]
      rcases lt_trichotomy x y with h | rfl | h
      · exact Or.inl (Or.inl (Or.inl h))
      · rcases ih ys with h | h <;>
          simp only [lexLe, Bool.or_eq_true, beq_iff_eq] at h
        · rcases h with h | h
          · exact Or.inl (Or.inl (Or.inr ⟨rfl, h⟩))
          · exact Or.inl (Or.inr ⟨rfl, h⟩)
        · rcases h with h | h
          · exact Or.inr (Or.inl (Or.inr ⟨rfl, h⟩))
          · exact Or.inr (Or.inr ⟨rfl, h⟩)
      · exact Or.inr (Or.inl (Or.inl h))

theorem lexLe_trans' : ∀ {a b c : List Char},
    lexLe a b = true → lexLe b c = true → lexLe a c = true := by
  intro a b c h h'
  simp only [lexLe, Bool.or_eq_true, beq_iff_eq] at h h' ⊢
  rcases h with h | rfl
  · rcases h' with h' | rfl
    · exact Or.inl (lexLt_trans h h')
    · exact Or.inl h
  · exact h'

theorem lexLe_antisymm' : ∀ {a b : List Char},
    lexLe a b = true → lexLe b a = true → a = b := by
  intro a b h h'
  simp only [lexLe, Bool.or_eq_true, beq_iff_eq] at h h'
  rcases h with h | rfl
  · rcases h' with h' | rfl
    · exact absurd h' (fun h' => lexLt_asymm h h')
    · rfl
  · rfl

instance : IsTotal WorkoutLog wLe := ⟨fun a b => lexLe_total (wKey a) (wKey b)⟩

instance : IsTrans WorkoutLog wLe := ⟨fun _ _ _ h h' => lexLe_trans' h h'⟩

instance : IsAntisymm WorkoutLog wLt :=
  ⟨fun _ _ h h' => absurd (lexLe_antisymm' h.1 h'.1) h.2⟩

instance : IsTotal DietLog dLe := ⟨fun a b => Nat.le_total (dKey a) (dKey b)⟩

instance : IsTrans DietLog dLe := ⟨fun _ _ _ h h' => Nat.le_trans h h'⟩

/-! ### Suggestion-engine lemmas -/

theorem appendIf_length_le (c : Bool) (s : String) (l : List String) :
    l.length ≤ (appendIf c s l).length := by
  unfold appendIf; split <;> simp

theorem padToTwo_length (l : List String) : 2 ≤ (padToTwo true l).length := by
  unfold padToTwo
  split
  · split
    · simp only [List.length_append, List.length_cons, List.length_nil]; omega
    · split
      · next h1 => simp only [List.length_append, List.length_cons, List.length_nil]; omega
      · next h0 h1 => omega
  · next h => simp at h

theorem addMotivation_length_le (l : List String) :
    l.length ≤ (addMotivation l).length := by
  unfold addMotivation; split <;> simp

theorem mem_appendIf {x : String} {c : Bool} {s : String} {l : List String}
    (h : x ∈ appendIf c s l) : x = s ∨ x ∈ l := by
  unfold appendIf at h
  split at h
  · rcases List.mem_append.mp h with h | h
    · exact Or.inr h
    · simp only [List.mem_singleton] at h; exact Or.inl h
  · exact Or.inr h

theorem mem_ruleSuggestions {x : String} {d : AnalyzedData}
    (h : x ∈ ruleSuggestions d) : x ∈ prePainStrings := by
  unfold ruleSuggestions at h
  rcases mem_appendIf h with rfl | h
  · decide
  rcases mem_appendIf h with rfl | h
  · decide
  rcases mem_appendIf h with rfl | h
  · decide
  rcases mem_appendIf h with rfl | h
  · decide
  rcases mem_appendIf h with rfl | h
  · decide
  rcases mem_appendIf h with rfl | h
  · decide
  split at h
  · simp only [List.nil_append, List.mem_singleton] at h
    subst h; decide
  · split at h
    · simp only [List.nil_append, List.mem_singleton] at h
      subst h; decide
    · cases h

theorem mem_padToTwo {x : String} {t : Bool} {l : List String}
    (h : x ∈ padToTwo t l) : x = sugGeneral1 ∨ x = sugGeneral2 ∨ x ∈ l := by
  unfold padToTwo at h
  split at h
  · split at h
    · rcases List.mem_append.mp h with h | h
      · exact Or.inr (Or.inr h)
      · simp only [List.mem_cons, List.not_mem_nil, or_false] at h
        rcases h with rfl | rfl
        · exact Or.inl rfl
        · exact Or.inr (Or.inl rfl)
    · split at h
      · rcases List.mem_append.mp h with h | h
        · exact Or.inr (Or.inr h)
        · simp only [List.mem_cons, List.not_mem_nil, or_false] at h
          subst h
          exact Or.inr (Or.inl rfl)
      · exact Or.inr (Or.inr h)
  · exact Or.inr (Or.inr h)

theorem mem_addMotivation {x : String} {l : List String}
    (h : x ∈ addMotivation l) : x = sugMotivation ∨ x ∈ l := by
  unfold addMotivation at h
  split at h
  · rcases List.mem_append.mp h with h | h
    · exact Or.inr h
    · simp only [List.mem_singleton] at h; exact Or.inl h
  · exact Or.inr h

/-- Every string produced before the pain check is one of the eleven fixed
rule strings; in particular the pain warning itself never occurs there. -/
theorem mem_sugsBeforePain {x : String} {d : AnalyzedData}
    (h : x ∈ sugsBeforePain d) : x ∈ prePainStrings := by
  unfold sugsBeforePain at h
  rcases mem_addMotivation h with rfl | h
  · decide
  rcases mem_padToTwo h with rfl | rfl | h
  · decide
  · decide
  · exact mem_ruleSuggestions h

theorem painWarning_not_mem_sugsBeforePain (d : AnalyzedData) :
    sugPainWarning ∉ sugsBeforePain d := by
  intro h
  have := mem_sugsBeforePain h
  revert this
  decide

/-! ### Claim C1 -/

/-- C1, as stated, is false: with both analysis sub-dictionaries empty or
missing, the padding loop's `(workout_analysis or diet_analysis)` guard
fails and the generator returns the single motivational message. -/
theorem c1_counterexample :
    (generate_suggestions ⟨none, none⟩).length = 1 ∧
      ¬ 2 ≤ (generate_suggestions ⟨none, none⟩).length := by
  decide

/-- C1 (amended): for every input whose workout or diet analysis dictionary
is non-empty — in particular every combined analysis built by the data
processor — `generate_suggestions` returns between 2 and 4 suggestions,
padding with generic tips when fewer than 2 were produced by the rules. -/
theorem c1_suggestion_count_bounds (d : AnalyzedData)
    (h : (d.workout_analysis.isSome || d.diet_analysis.isSome) = true) :
    2 ≤ (generate_suggestions d).length ∧ (generate_suggestions d).length ≤ 4 := by
  have h2 : 2 ≤ (sugsPreTrunc d).length := by
    have hp := padToTwo_length (ruleSuggestions d)
    rw [← h] at hp
    have hm := addMotivation_length_le
      (padToTwo (d.workout_analysis.isSome || d.diet_analysis.isSome) (ruleSuggestions d))
    have ha := appendIf_length_le (strHas "pain" (wNotesLower d)) sugPainWarning
      (sugsBeforePain d)
    unfold sugsPreTrunc sugsBeforePain
    unfold sugsBeforePain at ha
    omega
  unfold generate_suggestions
  rw [List.length_take]
  omega

/-- Witness for C1: the scenario input has a non-empty workout analysis and
gets a suggestion list of length between 2 and 4. -/
theorem c1_suggestion_count_bounds_witness :
    (tiredKneePain.workout_analysis.isSome || tiredKneePain.diet_analysis.isSome) = true ∧
      (2 ≤ (generate_suggestions tiredKneePain).length ∧
        (generate_suggestions tiredKneePain).length ≤ 4) :=
  ⟨by decide, c1_suggestion_count_bounds tiredKneePain (by decide)⟩

/-! ### Claim C2 -/

/-- C2, as stated, is false: on an input whose workout notes contain "pain"
but where four suggestions were already produced by the earlier rules, the
final `[:4]` truncation removes the appended pain warning. -/
theorem c2_counterexample :
    strHas "pain" (wNotesLower painBusy) = true ∧
      sugPainWarning ∉ generate_suggestions painBusy := by
  decide

/-- C2 (amended): when the workout notes contain "pain", the pain warning is
appended after the count logic regardless of how many suggestions exist, but
the final truncation to 4 runs after it: the warning survives exactly when
at most 3 suggestions preceded it, and is cut when 4 or more did. -/
theorem c2_pain_append_vs_truncation (d : AnalyzedData)
    (h : strHas "pain" (wNotesLower d) = true) :
    sugsPreTrunc d = sugsBeforePain d ++ [sugPainWarning] ∧
      ((sugsBeforePain d).length ≤ 3 → sugPainWarning ∈ generate_suggestions d) ∧
      (4 ≤ (sugsBeforePain d).length → sugPainWarning ∉ generate_suggestions d) := by
  have heq : sugsPreTrunc d = sugsBeforePain d ++ [sugPainWarning] := by
    unfold sugsPreTrunc appendIf
    rw [if_pos h]
  refine ⟨heq, ?_, ?_⟩
  · intro hlen
    unfold generate_suggestions
    rw [heq, List.take_of_length_le (by simp; omega)]
    exact List.mem_append.mpr (Or.inr (by simp))
  · intro hlen hmem
    unfold generate_suggestions at hmem
    rw [heq, List.take_append_of_le_length (by omega)] at hmem
    exact painWarning_not_mem_sugsBeforePain d (List.mem_of_mem_take hmem)

/-- Witness for C2: on the scenario input the notes contain "pain", only 3
suggestions precede the warning, and the warning is in the output. -/
theorem c2_pain_append_vs_truncation_witness :
    strHas "pain" (wNotesLower tiredKneePain) = true ∧
      (sugsPreTrunc tiredKneePain = sugsBeforePain tiredKneePain ++ [sugPainWarning] ∧
        ((sugsBeforePain tiredKneePain).length ≤ 3 →
          sugPainWarning ∈ generate_suggestions tiredKneePain) ∧
        (4 ≤ (sugsBeforePain tiredKneePain).length →
          sugPainWarning ∉ generate_suggestions tiredKneePain)) :=
  ⟨by decide, c2_pain_append_vs_truncation tiredKneePain (by decide)⟩

/-! ### Claim C3 -/

/-- C3, as stated, is false: on the scenario input the generic motivational
message IS part of the output — the motivational check runs before the pain
warning is appended, so the warning cannot suppress it. -/
theorem c3_counterexample : sugMotivation ∈ generate_suggestions tiredKneePain := by
  decide

/-- C3 (amended): for workout notes `"Felt tired, some knee pain"` and all
other fields absent, the output is exactly the recovery tip, the second
generic tip (from padding), the motivational message, and the pain warning
— both claimed strings are present, but the motivational filler is not
suppressed. -/
theorem c3_scenario_output :
    generate_suggestions tiredKneePain =
      [sugRecovery, sugGeneral2, sugMotivation, sugPainWarning] := by
  decide

/-! ### Workout-analyzer lemmas -/

/-- Inversion of a successful analysis of a non-empty batch: each output
field is the corresponding aggregate of the sorted batch. -/
theorem analyze_workout_cons {a : WorkoutLog} {as : List WorkoutLog} {r : WorkoutAnalysis}
    (h : analyze_workout_logs (a :: as) = .ok r) :
    consistencyOf (wSort (a :: as)) = .ok r.consistency ∧
      r.completion_summary = completionSummary (wSort (a :: as)) ∧
      r.progress_trends = progressTrends (wSort (a :: as)) ∧
      r.perceived_exertion = perceivedExertionAvg (wSort (a :: as)) ∧
      r.notes_summary = notesSummary (wSort (a :: as)) := by
  simp only [analyze_workout_logs] at h
  cases hc : consistencyOf (wSort (a :: as)) with
  | error e => rw [hc] at h; cases h
  | ok c =>
    rw [hc] at h
    injection h with h
    subst h
    exact ⟨rfl, rfl, rfl, rfl, rfl⟩

theorem bump_sumCounts (k : String) (hst : List (String × Nat)) :
    sumCounts (bump k hst) = sumCounts hst + 1 := by
  induction hst with
  | nil => rfl
  | cons p rest ih =>
    obtain ⟨k', n⟩ := p
    unfold bump
    split
    · simp only [sumCounts, List.map_cons, List.sum_cons]; omega
    · simp only [sumCounts, List.map_cons, List.sum_cons] at ih ⊢; omega

theorem foldl_bump_sum (L : List WorkoutLog) :
    ∀ acc : List (String × Nat),
      sumCounts (L.foldl (fun acc l => bump (l.completion_status.getD "unknown") acc) acc) =
        sumCounts acc + L.length := by
  induction L with
  | nil => intro acc; simp
  | cons l L ih =>
    intro acc
    simp only [List.foldl_cons, List.length_cons]
    rw [ih, bump_sumCounts]
    omega

theorem completionSummary_sum (L : List WorkoutLog) :
    sumCounts (completionSummary L) = L.length := by
  unfold completionSummary
  rw [foldl_bump_sum]
  simp [sumCounts]

/-! ### Claim C8 -/

/-- C8 (confirmed): for every non-empty workout log batch on which the
analyzer succeeds, the completion-status histogram's counts sum to the
number of entries in the batch (missing statuses are bucketed under the
`"unknown"` default). -/
theorem c8_completion_histogram_sum (logs : List WorkoutLog) (r : WorkoutAnalysis)
    (hne : logs ≠ []) (hok : analyze_workout_logs logs = .ok r) :
    sumCounts r.completion_summary = logs.length := by
  cases logs with
  | nil => exact absurd rfl hne
  | cons a as =>
    obtain ⟨_, hcomp, _, _, _⟩ := analyze_workout_cons hok
    rw [hcomp, completionSummary_sum]
    exact (List.perm_insertionSort wLe (a :: as)).length_eq

/-- Witness for C8: a concrete two-entry batch, one entry with a completion
status and one without, whose histogram counts sum to 2. -/
theorem c8_completion_histogram_sum_witness :
    [liftLogA, liftLogB] ≠ ([] : List WorkoutLog) ∧
      analyze_workout_logs [liftLogA, liftLogB] = .ok liftAnalysis ∧
      sumCounts liftAnalysis.completion_summary = [liftLogA, liftLogB].length :=
  ⟨by decide, rfl,
    c8_completion_histogram_sum [liftLogA, liftLogB] liftAnalysis (by decide) rfl⟩

/-! ### Claim C9 -/

/-- C9 (confirmed): on the empty batch both analyzers return without
failure: the workout analyzer yields the "no data" consistency marker with
every other field at its default, and the diet analyzer (for any supplied
targets) yields the all-zero record with empty histograms and notes and no
`*_vs_target` keys. -/
theorem c9_empty_batches :
    analyze_workout_logs [] =
        .ok { consistency := { message := some "No workout logs provided." } } ∧
      ∀ tc tp tcb tf : Option Rat, analyze_diet_logs [] tc tp tcb tf = .ok {} :=
  ⟨rfl, fun _ _ _ _ => rfl⟩

/-! ### Claim C10 -/

theorem progressLabel_mem (d : ExerciseData) : progressLabel d ∈ progressLabels := by
  unfold progressLabel
  split
  · decide
  · split
    · rw [if_pos rfl]; decide
    · split
      · rw [if_pos rfl]; decide
      · decide

/-- C10, as stated, is false: the composed label
`"Weight increased and Reps increased"` is unreachable — the reps branch is
an `elif` of the weight branch, so the label can only still be the default
when it is tested, and the composing `else` arms are dead code. -/
theorem c10_counterexample :
    ¬ ∃ (logs : List WorkoutLog) (r : WorkoutAnalysis) (eid : String),
        analyze_workout_logs logs = .ok r ∧
          (eid, "Weight increased and Reps increased") ∈ r.progress_trends := by
  rintro ⟨logs, r, eid, hok, hmem⟩
  cases logs with
  | nil =>
    simp only [analyze_workout_logs] at hok
    injection hok with h
    subst h
    cases hmem
  | cons a as =>
    obtain ⟨_, _, htr, _, _⟩ := analyze_workout_cons hok
    rw [htr] at hmem
    unfold progressTrends at hmem
    obtain ⟨⟨e, dta⟩, _, heq⟩ := List.mem_map.mp hmem
    have hl : progressLabel dta = "Weight increased and Reps increased" :=
      congrArg Prod.snd heq
    have hmemlbl := progressLabel_mem dta
    rw [hl] at hmemlbl
    revert hmemlbl
    decide

/-- C10 (amended): every label the progress-trend analysis can attach is one
of the four simple labels; the composed labels are dead code. -/
theorem c10_progress_label_range (logs : List WorkoutLog) (r : WorkoutAnalysis)
    (eid lab : String) (hok : analyze_workout_logs logs = .ok r)
    (hmem : (eid, lab) ∈ r.progress_trends) : lab ∈ progressLabels := by
  cases logs with
  | nil =>
    simp only [analyze_workout_logs] at hok
    injection hok with h
    subst h
    cases hmem
  | cons a as =>
    obtain ⟨_, _, htr, _, _⟩ := analyze_workout_cons hok
    rw [htr] at hmem
    unfold progressTrends at hmem
    obtain ⟨⟨e, dta⟩, _, heq⟩ := List.mem_map.mp hmem
    have hl : progressLabel dta = lab := congrArg Prod.snd heq
    rw [← hl]
    exact progressLabel_mem dta

/-! ### Claim C5 -/

/-- With at least two distinct truthy dates that all parse, the consistency
block records the span and attaches the ratio only when the span is
positive; when the span is 0 no ratio key is set (the source's fallback
`else len(unique_dates)` sits under `if time_span > 0:` and is dead). -/
theorem consistencyOf_two {L : List WorkoutLog} {c : ConsistencyInfo}
    (hok : consistencyOf L = .ok c) (h2 : 2 ≤ (uniqueDates L).length) :
    c.unique_workout_dates = some (uniqueDates L).length ∧
      ∃ s : Int, c.time_span_days = some s ∧
        (0 < s → c.workouts_per_day_average =
          some (((uniqueDates L).length : Rat) / (s : Rat))) ∧
        (s = 0 → c.workouts_per_day_average = none) := by
  have hne : ¬ uniqueDates L = [] := by
    intro e
    rw [e] at h2
    simp at h2
  simp only [consistencyOf] at hok
  rw [if_neg hne] at hok
  cases hm : (uniqueDates L).mapM parseOrd with
  | none => rw [hm] at hok; cases hok
  | some ords =>
    rw [hm] at hok
    injection hok with h
    subst h
    refine ⟨rfl, _, rfl, fun hs => ?_, fun hs => ?_⟩
    · simp only [if_pos hs]
    · simp only [hs]
      norm_num

/-- C5, as stated, is false: the strings `"2026-01-02"` and `"2026-1-2"` are
two distinct non-empty workout dates that both parse (the format accepts
unpadded fields) to the same day, so the span is 0 — and then no
workouts-per-day ratio is attached at all, instead of the distinct-date
count the claim requires. -/
theorem c5_counterexample :
    analyze_workout_logs [samedayA, samedayB] = .ok samedayAnalysis ∧
      samedayAnalysis.consistency.unique_workout_dates = some 2 ∧
      samedayAnalysis.consistency.time_span_days = some 0 ∧
      samedayAnalysis.consistency.workouts_per_day_average = none ∧
      samedayAnalysis.consistency.workouts_per_day_average ≠ some ((2 : Nat) : Rat) :=
  ⟨rfl, rfl, rfl, rfl, by decide⟩

/-- C5 (amended): for every batch on which the analyzer succeeds with at
least 2 distinct truthy workout dates, the consistency result records the
distinct-date count and the day span, and carries the workouts-per-day
ratio (distinct dates ÷ span) exactly when the span is positive; when the
span is 0 the ratio key is absent (the span-0 fallback in the source is
dead code). -/
theorem c5_consistency_ratio (logs : List WorkoutLog) (r : WorkoutAnalysis)
    (hok : analyze_workout_logs logs = .ok r)
    (h2 : 2 ≤ (uniqueDates (wSort logs)).length) :
    r.consistency.unique_workout_dates = some (uniqueDates (wSort logs)).length ∧
      ∃ s : Int, r.consistency.time_span_days = some s ∧
        (0 < s → r.consistency.workouts_per_day_average =
          some (((uniqueDates (wSort logs)).length : Rat) / (s : Rat))) ∧
        (s = 0 → r.consistency.workouts_per_day_average = none) := by
  cases logs with
  | nil => exact absurd h2 (by decide)
  | cons a as =>
    obtain ⟨hc, _, _, _, _⟩ := analyze_workout_cons hok
    exact consistencyOf_two hc h2

/-- Witness for C5: the two-entry batch with distinct date strings for the
same day satisfies the amended theorem's hypotheses. -/
theorem c5_consistency_ratio_witness :
    analyze_workout_logs [samedayA, samedayB] = .ok samedayAnalysis ∧
      2 ≤ (uniqueDates (wSort [samedayA, samedayB])).length ∧
      (samedayAnalysis.consistency.unique_workout_dates =
          some (uniqueDates (wSort [samedayA, samedayB])).length ∧
        ∃ s : Int, samedayAnalysis.consistency.time_span_days = some s ∧
          (0 < s → samedayAnalysis.consistency.workouts_per_day_average =
            some (((uniqueDates (wSort [samedayA, samedayB])).length : Rat) / (s : Rat))) ∧
          (s = 0 → samedayAnalysis.consistency.workouts_per_day_average = none)) :=
  ⟨rfl, by decide,
    c5_consistency_ratio [samedayA, samedayB] samedayAnalysis rfl (by decide)⟩

/-- Witness for C10: a concrete batch whose one exercise gets the label
`"Weight increased"`, which is among the four reachable labels. -/
theorem c10_progress_label_range_witness :
    analyze_workout_logs [liftLogA, liftLogB] = .ok liftAnalysis ∧
      ("ex1", "Weight increased") ∈ liftAnalysis.progress_trends ∧
      "Weight increased" ∈ progressLabels :=
  ⟨rfl, by decide,
    c10_progress_label_range [liftLogA, liftLogB] liftAnalysis "ex1" "Weight increased"
      rfl (by decide)⟩

/-! ### Diet-analyzer lemmas -/

theorem dailyStep_of_none {acc : List (Nat × DayAcc)} {l : DietLog}
    (h : hasDay l = false) : dailyStep acc l = acc := by
  unfold dailyStep
  cases hd : dayOf l with
  | none => rfl
  | some k => unfold hasDay at h; rw [hd] at h; cases h

theorem dailyFold_filter (M : List DietLog) :
    ∀ acc : List (Nat × DayAcc),
      M.foldl dailyStep acc = (M.filter hasDay).foldl dailyStep acc := by
  induction M with
  | nil => intro acc; rfl
  | cons l M ih =>
    intro acc
    by_cases hd : hasDay l
    · rw [List.filter_cons_of_pos hd]
      simp only [List.foldl_cons]
      exact ih _
    · rw [List.filter_cons_of_neg (by simpa using hd)]
      simp only [List.foldl_cons]
      rw [dailyStep_of_none (by simpa using hd)]
      exact ih _

/-- Entries without a parseable truthy `log_date` are invisible to the
per-day accumulator. -/
theorem dailyIntake_filter (L : List DietLog) :
    dailyIntake L = dailyIntake (L.filter hasDay) :=
  dailyFold_filter L []

/-! ### Claim C6 -/

/-- C6, as stated, is false: for the empty batch the early "no data" return
runs before the target comparisons, so even with `target_fats` supplied the
result carries no `fats_vs_target` key. -/
theorem c6_counterexample :
    analyze_diet_logs [] none none none (some 10) = .ok {} ∧
      ({} : DietAnalysis).fats_vs_target = none ∧
      ({} : DietAnalysis).fats_vs_target ≠
        some (({} : DietAnalysis).average_daily_fats - 10) :=
  ⟨rfl, rfl, by decide⟩

/-- C6 (amended): for every NON-EMPTY diet log batch (with sortable
timestamps), each of the four targets, when supplied, independently yields
the signed difference `average_daily_X − target_X` for that nutrient only,
and an unsupplied target yields no key; for the empty batch the early
return omits all four `*_vs_target` keys. -/
theorem c6_targets_signed_difference (logs : List DietLog)
    (tc tp tcb tf : Option Rat) (hne : logs ≠ []) (hts : logs.all tsOk = true) :
    ∃ r, analyze_diet_logs logs tc tp tcb tf = .ok r ∧
      r.calories_vs_target = tc.map (fun t => r.average_daily_calories - t) ∧
      r.protein_vs_target = tp.map (fun t => r.average_daily_protein - t) ∧
      r.carbs_vs_target = tcb.map (fun t => r.average_daily_carbs - t) ∧
      r.fats_vs_target = tf.map (fun t => r.average_daily_fats - t) := by
  unfold analyze_diet_logs
  rw [hts]
  simp only [Bool.true_eq_false, if_false]
  cases hd : dSort logs with
  | nil =>
    exfalso
    apply hne
    have hlen : (dSort logs).length = logs.length :=
      (List.perm_insertionSort dLe logs).length_eq
    rw [hd] at hlen
    exact List.length_eq_zero.mp hlen.symm
  | cons d ds =>
    exact ⟨_, rfl, rfl, rfl, rfl, rfl⟩

/-- Witness for C6: a one-entry batch with only a fats target supplied. -/
theorem c6_targets_signed_difference_witness :
    [blankDietLog] ≠ ([] : List DietLog) ∧ [blankDietLog].all tsOk = true ∧
      (∃ r, analyze_diet_logs [blankDietLog] none none none (some 10) = .ok r ∧
        r.calories_vs_target = none.map (fun t => r.average_daily_calories - t) ∧
        r.protein_vs_target = none.map (fun t => r.average_daily_protein - t) ∧
        r.carbs_vs_target = none.map (fun t => r.average_daily_carbs - t) ∧
        r.fats_vs_target = (some 10).map (fun t => r.average_daily_fats - t)) :=
  ⟨by decide, by decide,
    c6_targets_signed_difference [blankDietLog] none none none (some 10)
      (by decide) (by decide)⟩

/-! ### Claim C7 -/

/-- C7 (confirmed): a batch containing an entry with a truthy but
unparseable `log_date` is still analyzed without failure (given sortable
timestamps): the running totals sum the macros of every entry, while the
per-day accumulator — from which the daily averages are computed — is
unchanged by entries lacking a parseable date. -/
theorem c7_unparseable_log_date (logs : List DietLog) (tc tp tcb tf : Option Rat)
    (hts : logs.all tsOk = true)
    (hbad : ∃ l ∈ logs, truthyStr l.log_date = true ∧
      parseOrd (l.log_date.getD "") = none) :
    ∃ r, analyze_diet_logs logs tc tp tcb tf = .ok r ∧
      r.total_calories = (logs.map (fun l => macro0 l.calories)).sum ∧
      r.total_protein = (logs.map (fun l => macro0 l.protein)).sum ∧
      r.total_carbs = (logs.map (fun l => macro0 l.carbs)).sum ∧
      r.total_fats = (logs.map (fun l => macro0 l.fats)).sum ∧
      dailyIntake (dSort logs) = dailyIntake ((dSort logs).filter hasDay) := by
  have hperm : List.Perm (dSort logs) logs := List.perm_insertionSort dLe logs
  unfold analyze_diet_logs
  rw [hts]
  simp only [Bool.true_eq_false, if_false]
  cases hd : dSort logs with
  | nil =>
    exfalso
    obtain ⟨l, hl, _⟩ := hbad
    have hlen : (dSort logs).length = logs.length := hperm.length_eq
    rw [hd] at hlen
    rw [List.length_eq_zero.mp hlen.symm] at hl
    cases hl
  | cons d ds =>
    refine ⟨_, rfl, ?_, ?_, ?_, ?_, dailyIntake_filter (d :: ds)⟩ <;>
      rw [← hd] <;> exact (hperm.map _).sum_eq

/-- Witness for C7: the scenario batch with `log_date = "not-a-date"`. -/
theorem c7_unparseable_log_date_witness :
    [badDateLog, goodDateLog].all tsOk = true ∧
      (∃ l ∈ [badDateLog, goodDateLog], truthyStr l.log_date = true ∧
        parseOrd (l.log_date.getD "") = none) ∧
      (∃ r, analyze_diet_logs [badDateLog, goodDateLog] none none none none = .ok r ∧
        r.total_calories =
          ([badDateLog, goodDateLog].map (fun l => macro0 l.calories)).sum ∧
        r.total_protein =
          ([badDateLog, goodDateLog].map (fun l => macro0 l.protein)).sum ∧
        r.total_carbs =
          ([badDateLog, goodDateLog].map (fun l => macro0 l.carbs)).sum ∧
        r.total_fats =
          ([badDateLog, goodDateLog].map (fun l => macro0 l.fats)).sum ∧
        dailyIntake (dSort [badDateLog, goodDateLog]) =
          dailyIntake ((dSort [badDateLog, goodDateLog]).filter hasDay)) :=
  ⟨by decide, by decide,
    c7_unparseable_log_date [badDateLog, goodDateLog] none none none none
      (by decide) (by decide)⟩

/-! ### Claim C4 -/

/-- Two permutations of a batch whose sort keys are pairwise distinct have
the same stable-sort result: both sorts are permutations of each other and
strictly sorted by key, and a strictly sorted list is unique in its
permutation class. -/
theorem wSort_eq_of_perm {l₁ l₂ : List WorkoutLog} (h : List.Perm l₁ l₂)
    (hn : (l₁.map wKey).Nodup) : wSort l₁ = wSort l₂ := by
  have p1 : List.Perm (wSort l₁) l₁ := List.perm_insertionSort wLe l₁
  have p2 : List.Perm (wSort l₂) l₂ := List.perm_insertionSort wLe l₂
  have p : List.Perm (wSort l₁) (wSort l₂) := p1.trans (h.trans p2.symm)
  have s1 : List.Pairwise wLe (wSort l₁) := List.sorted_insertionSort wLe l₁
  have s2 : List.Pairwise wLe (wSort l₂) := List.sorted_insertionSort wLe l₂
  have hn1 : ((wSort l₁).map wKey).Nodup := ((p1.map wKey).symm).nodup hn
  have hn2 : ((wSort l₂).map wKey).Nodup :=
    ((p2.map wKey).symm).nodup ((h.map wKey).nodup hn)
  have ne1 : List.Pairwise (fun a b => wKey a ≠ wKey b) (wSort l₁) :=
    List.pairwise_map.mp (hn1 : List.Pairwise (· ≠ ·) _)
  have ne2 : List.Pairwise (fun a b => wKey a ≠ wKey b) (wSort l₂) :=
    List.pairwise_map.mp (hn2 : List.Pairwise (· ≠ ·) _)
  have s1' : List.Pairwise wLt (wSort l₁) :=
    (s1.and ne1).imp fun hab => ⟨hab.1, hab.2⟩
  have s2' : List.Pairwise wLt (wSort l₂) :=
    (s2.and ne2).imp fun hab => ⟨hab.1, hab.2⟩
  exact List.eq_of_perm_of_sorted p s1' s2'

/-- C4, as stated, is false: Python's sort is stable, so two entries with
the SAME `workout_date` keep their arrival order, and the (order-sensitive)
notes summary differs between the two arrival orders. -/
theorem c4_counterexample :
    List.Perm [dupDateA, dupDateB] [dupDateB, dupDateA] ∧
      analyze_workout_logs [dupDateA, dupDateB] ≠
        analyze_workout_logs [dupDateB, dupDateA] := by
  constructor
  · exact List.Perm.swap dupDateB dupDateA []
  · intro h
    have h2 := congrArg (fun e => e.toOption.map (fun r => r.notes_summary)) h
    revert h2
    decide

/-- C4 (amended): the analysis is invariant under permutation of the batch
whenever the sort keys (the `workout_date` strings, `""` for missing) are
pairwise distinct — then the internal sort-by-date determines the
processing order completely. With duplicate dates, stable sorting makes the
notes summary depend on arrival order. -/
theorem c4_permutation_invariance (l₁ l₂ : List WorkoutLog) (h : List.Perm l₁ l₂)
    (hn : (l₁.map wKey).Nodup) :
    analyze_workout_logs l₁ = analyze_workout_logs l₂ := by
  cases l₁ with
  | nil =>
    cases l₂ with
    | nil => rfl
    | cons b bs => cases h.symm.eq_nil
  | cons a as =>
    cases l₂ with
    | nil => cases h.eq_nil
    | cons b bs =>
      have hs : wSort (a :: as) = wSort (b :: bs) := wSort_eq_of_perm h hn
      simp only [analyze_workout_logs]
      rw [hs]

/-- Witness for C4: two logs with distinct dates analyzed in both orders. -/
theorem c4_permutation_invariance_witness :
    List.Perm [distinctA, distinctB] [distinctB, distinctA] ∧
      ([distinctA, distinctB].map wKey).Nodup ∧
      analyze_workout_logs [distinctA, distinctB] =
        analyze_workout_logs [distinctB, distinctA] :=
  ⟨List.Perm.swap distinctB distinctA [], by decide,
    c4_permutation_invariance [distinctA, distinctB] [distinctB, distinctA]
      (List.Perm.swap distinctB distinctA []) (by decide)⟩

end Fitness
